import Mathlib

/-!
# Shallow embedding of the specwrite-mcp core

This file embeds, in Lean 4, the role-gated workflow core of the
specwrite-mcp repository:

* `role_manager.py`  — the fixed role table and permission check,
* `project_state.py` — the five artifact categories and progress derivation,
* `validation_manager.py` — the heuristic content validators,
* `tool_handlers.py` — the per-request dispatch pipeline (`call_tool`).

Python strings become Lean `String`s; the Python substring operator
`needle in hay` becomes `strContains`; Python dicts of fixed shape become
structures; the heterogeneous artifact dicts become the inductive `Item`
with one constructor per dict shape that appears in the source.  The
prose templates rendered by `template_manager.py` live in YAML files that
are not part of the source tree; each is modelled as an abstract constant
string (the claims below never inspect template prose, only which branch
produced the response and how state changed).
-/

namespace SpecwriteMCP

/-! ## String helpers (Python `str.lower()` and substring `in`) -/

/-- Python `s.lower()` (ASCII case folding, which is all the source uses). -/
def toLowerStr (s : String) : String :=
  String.mk (s.data.map Char.toLower)

/-- Helper: `listStartsWith n h` is true iff `n` is an initial segment of `h`. -/
def listStartsWith : List Char → List Char → Bool
  | [], _ => true
  | _ :: _, [] => false
  | a :: as, b :: bs => a == b && listStartsWith as bs

/-- Helper: `listIsSub n h` is true iff `n` occurs contiguously inside `h`. -/
def listIsSub : List Char → List Char → Bool
  | needle, [] => needle.isEmpty
  | needle, h :: t => listStartsWith needle (h :: t) || listIsSub needle t

/-- Python substring test `needle in hay` for strings. -/
def strContains (hay needle : String) : Bool :=
  listIsSub needle.data hay.data

/-! ## Data model

Artifact dicts (`project_state.py` items).  Each handler in
`tool_handlers.py` builds a dict of one of four fixed shapes; `Item` has
one constructor per shape.  `report` nests the previously stored
`test_results` list (`_handle_generate_test_reports` stores the whole
list under `test_results_summary`), so `Item` is a nested inductive. -/

/-- The fixed `results` dict of `_handle_execute_tests`. -/
structure TestResults where
  total_tests : Nat
  passed : Nat
  failed : Nat
  skipped : Nat
  pass_rate : String
deriving Repr, DecidableEq

/-- The fixed `quality_metrics` dict of `_handle_execute_tests`. -/
structure QualityMetrics where
  code_coverage : String
  performance_score : String
  security_score : String
deriving Repr, DecidableEq

/-- The fixed `quality_assessment` dict of `_handle_generate_test_reports`. -/
structure QualityAssessment where
  overall_quality_score : String
  strengths : List String
  improvement_areas : List String
deriving Repr, DecidableEq

/-- The optional cross-reference key a validated artifact dict carries
(each commit handler adds at most one such key). -/
inductive CrossRef : Type where
  | noRef : CrossRef
  | based_on_specs (titles : List String) : CrossRef
  | testing_implementations (titles : List String) : CrossRef
  | reviewing_specs (titles : List String) : CrossRef
  | based_on_designs (titles : List String) : CrossRef
  | implementing_features (titles : List String) : CrossRef
deriving Repr, DecidableEq

/-- An artifact stored in the project state, one constructor per dict
shape built in `tool_handlers.py`:
`basic` (= `_handle_basic_tool`), `scored` (= the eight validation-gated
handlers: title, description, content, role, created_at, validated,
quality_score, plus an optional cross-reference key),
`execution` (= `_handle_execute_tests`), `report`
(= `_handle_generate_test_reports`). -/
inductive Item : Type where
  | basic (title description content role created_at : String) : Item
  | scored (title description content role created_at : String)
      (validated : Bool) (quality_score : Nat) (refs : CrossRef) : Item
  | execution (title description execution_summary : String)
      (test_plans_executed : List String) (results : TestResults)
      (quality_metrics : QualityMetrics) (role created_at : String) : Item
  | report (title description executive_summary : String)
      (test_results_summary : List Item)
      (quality_assessment : QualityAssessment)
      (recommendations : List String) (role created_at : String) : Item

/-- The `"title"` entry of an item dict. -/
def Item.title : Item → String
  | .basic t _ _ _ _ => t
  | .scored t _ _ _ _ _ _ _ => t
  | .execution t _ _ _ _ _ _ _ => t
  | .report t _ _ _ _ _ _ _ => t

/-- The `"validated"` entry of an item dict, `none` when the dict shape
has no such key (basic, execution and report items). -/
def Item.validatedFlag : Item → Option Bool
  | .scored _ _ _ _ _ v _ _ => some v
  | _ => none

/-- The `"quality_score"` entry of an item dict, `none` when the dict
shape has no such key (basic, execution and report items). -/
def Item.qualityScore : Item → Option Nat
  | .scored _ _ _ _ _ _ q _ => some q
  | _ => none

/-- The `"results"` entry of an item dict (`execution` items only). -/
def Item.resultsField : Item → Option TestResults
  | .execution _ _ _ _ r _ _ _ => some r
  | _ => none

/-- The `"quality_metrics"` entry of an item dict (`execution` items only). -/
def Item.metricsField : Item → Option QualityMetrics
  | .execution _ _ _ _ _ m _ _ => some m
  | _ => none

/-! ## `project_state.py` -/

/-- Embeds `ProjectState.state`: the five fixed categories, each an ordered
list of items. -/
structure ProjectState where
  specifications : List Item := []
  technical_designs : List Item := []
  code_implementations : List Item := []
  test_plans : List Item := []
  test_results : List Item := []

/-- Embeds `ProjectState.add_item`: append to the named category, returning the
new state and the `bool` the source returns (`False` for a name outside
the five fixed categories, state unchanged there). -/
def ProjectState.add_item (s : ProjectState) (category : String) (item : Item) :
    ProjectState × Bool :=
  if category = "specifications" then
    ({ s with specifications := s.specifications ++ [item] }, true)
  else if category = "technical_designs" then
    ({ s with technical_designs := s.technical_designs ++ [item] }, true)
  else if category = "code_implementations" then
    ({ s with code_implementations := s.code_implementations ++ [item] }, true)
  else if category = "test_plans" then
    ({ s with test_plans := s.test_plans ++ [item] }, true)
  else if category = "test_results" then
    ({ s with test_results := s.test_results ++ [item] }, true)
  else (s, false)

/-- Embeds `ProjectState.get_items` for the five fixed categories (`[]` for any
other name, as `dict.get(category, [])` returns). -/
def ProjectState.get_items (s : ProjectState) (category : String) : List Item :=
  if category = "specifications" then s.specifications
  else if category = "technical_designs" then s.technical_designs
  else if category = "code_implementations" then s.code_implementations
  else if category = "test_plans" then s.test_plans
  else if category = "test_results" then s.test_results
  else []

/-- The dict returned by `ProjectState.get_status`. -/
structure StatusCounts where
  specifications_count : Nat
  technical_designs_count : Nat
  code_implementations_count : Nat
  test_plans_count : Nat
  test_results_count : Nat
deriving Repr, DecidableEq

/-- Embeds `ProjectState.get_status`: the per-category item counts. -/
def ProjectState.get_status (s : ProjectState) : StatusCounts :=
  { specifications_count := s.specifications.length
    technical_designs_count := s.technical_designs.length
    code_implementations_count := s.code_implementations.length
    test_plans_count := s.test_plans.length
    test_results_count := s.test_results.length }

/-- The dict returned by `ProjectState.get_progress_summary`.  The
source computes `progress_percentage` with Python float division
`(progress_items / 5) * 100`; for `progress_items ∈ {0,…,5}` that float
arithmetic is exact, so the value is modelled in `ℚ`. -/
structure ProgressSummary where
  progress_percentage : ℚ
  stage : String
  total_items : Nat
  completed_items : Nat
deriving Repr, DecidableEq

/-- Embeds `ProjectState.get_progress_summary`, line for line from the source. -/
def ProjectState.get_progress_summary (s : ProjectState) : ProgressSummary :=
  let status := s.get_status
  let total_items := status.specifications_count + status.technical_designs_count +
    status.code_implementations_count + status.test_plans_count + status.test_results_count
  if total_items = 0 then
    { progress_percentage := 0, stage := "Not Started", total_items := 0, completed_items := 0 }
  else
    let specs := status.specifications_count
    let designs := status.technical_designs_count
    let code := status.code_implementations_count
    let tests := status.test_plans_count
    let results := status.test_results_count
    let stage :=
      if specs = 0 then "Requirements"
      else if designs = 0 then "Architecture"
      else if code = 0 then "Development"
      else if tests = 0 then "Testing"
      else if results = 0 then "Execution"
      else "Complete"
    let progress_items := min specs 1 + min designs 1 + min code 1 + min tests 1 + min results 1
    { progress_percentage := (progress_items : ℚ) / 5 * 100
      stage := stage
      total_items := total_items
      completed_items := progress_items }

/-! ## `role_manager.py` -/

/-- The keys of `RoleManager.roles`, in dict insertion order. -/
def roleIds : List String := ["product_manager", "architect", "developer", "tester"]

/-- Embeds `RoleManager.roles[role]["tools"]` — the owned tool names of each
role, `[]` for any other string (`roles.get(role, {}).get("tools", [])`). -/
def roleTools (role : String) : List String :=
  if role = "product_manager" then ["create_spec", "review_requirements"]
  else if role = "architect" then ["design_system", "create_technical_spec"]
  else if role = "developer" then ["implement_feature", "write_code", "create_tests"]
  else if role = "tester" then ["create_test_plan", "execute_tests", "generate_test_reports"]
  else []

/-- Embeds `RoleManager.roles[role]["description"]`, with the source
default `"Unknown role"`. -/
def roleDescription (role : String) : String :=
  if role = "product_manager" then "Defines business requirements and user stories"
  else if role = "architect" then "Designs system architecture and technical specifications"
  else if role = "developer" then "Implements features and writes code"
  else if role = "tester" then "Creates test plans and executes testing"
  else "Unknown role"

/-- Embeds `RoleManager.can_use_tool`: the Python test `tool_name in roles[role]["tools"]`. -/
def can_use_tool (tool_name role : String) : Bool :=
  decide (tool_name ∈ roleTools role)

/-! ## `validation_manager.py`

Each validator accumulates `(score, issues)` exactly in source order and
returns the dict `{valid, score, message}` with
`valid = (issues == [])`, `score = min(score, 10)` and `message` the
newline-join of the issues (or the success sentence of the kind). -/

/-- The dict each validator returns. -/
structure ValidationResult where
  valid : Bool
  score : Nat
  message : String
deriving Repr, DecidableEq

/-- The required-section loop shared by the validators:
`if section.lower() not in content.lower(): issues.append(...) else: score += 2`. -/
def sectionCheck (contentL : String) (acc : Nat × List String) (sec : String) :
    Nat × List String :=
  if strContains contentL (toLowerStr sec) then (acc.1 + 2, acc.2)
  else (acc.1, acc.2 ++ ["Missing required section: " ++ sec])

/-- Assemble the returned dict from the accumulated score and issues. -/
def mkValidationResult (score : Nat) (issues : List String) (okMessage : String) :
    ValidationResult :=
  { valid := issues = []
    score := min score 10
    message := if issues = [] then okMessage else String.intercalate "\n" issues }

/-- Embeds `ValidationManager.validate_spec_content`. -/
def validate_spec_content (content : String) : ValidationResult :=
  let contentL := toLowerStr content
  let acc := ["Business Value", "User Stories", "Acceptance Criteria",
    "Success Metrics"].foldl (sectionCheck contentL) (0, [])
  let acc :=
    if strContains contentL "as a" && strContains contentL "i want" &&
        strContains contentL "so that" then (acc.1 + 1, acc.2)
    else (acc.1, acc.2 ++
      ["User stories should follow the standard user story format"])
  let acc :=
    if strContains contentL "given" && strContains contentL "when" &&
        strContains contentL "then" then (acc.1 + 1, acc.2)
    else (acc.1, acc.2 ++
      ["Acceptance criteria should follow the given-when-then format"])
  let acc :=
    if content.length < 200 then
      (acc.1, acc.2 ++ ["Specification is too brief. Add more detail to each section."])
    else if content.length > 5000 then
      (acc.1, acc.2 ++
        ["Specification is very long. Consider breaking it into smaller, focused specs."])
    else (acc.1 + 1, acc.2)
  let acc :=
    if ["%", "time", "number", "count", "rate"].any (fun m => strContains contentL m) then
      (acc.1 + 1, acc.2)
    else (acc.1, acc.2 ++ ["Success metrics should be measurable and specific"])
  mkValidationResult acc.1 acc.2 "Specification meets all requirements"

/-- Embeds `ValidationManager.validate_architecture_content`. -/
def validate_architecture_content (content : String) : ValidationResult :=
  let contentL := toLowerStr content
  let acc := ["Architecture Overview", "API Design", "Database Schema",
    "Technology Stack"].foldl (sectionCheck contentL) (0, [])
  let acc :=
    if strContains contentL "post" || strContains contentL "get" ||
        strContains contentL "put" then (acc.1 + 1, acc.2)
    else (acc.1, acc.2 ++ ["API design should include HTTP methods (GET, POST, PUT, DELETE)"])
  let acc :=
    if strContains contentL "table" || strContains contentL "schema" then (acc.1 + 1, acc.2)
    else (acc.1, acc.2 ++ ["Database schema should include table definitions"])
  let acc :=
    if strContains contentL "security" || strContains contentL "auth" then (acc.1 + 1, acc.2)
    else (acc.1, acc.2 ++ ["Architecture should consider security requirements"])
  mkValidationResult acc.1 acc.2 "Architecture design meets all requirements"

/-- Embeds `ValidationManager.validate_implementation_content` (the
`tech_designs` parameter is taken but never read, as in the source). -/
def validate_implementation_content (content : String) (specs : List Item)
    (_tech_designs : List Item) : ValidationResult :=
  let contentL := toLowerStr content
  let spec_titles := specs.map (fun s => toLowerStr s.title)
  let acc : Nat × List String :=
    if spec_titles.any (fun t => strContains contentL t) then (2, [])
    else (0, ["Implementation should reference the specifications it is implementing"])
  let acc :=
    if strContains content "```" || strContains contentL "code" then (acc.1 + 2, acc.2)
    else (acc.1, acc.2 ++ ["Implementation should include code examples or structure"])
  let acc :=
    if strContains contentL "test" then (acc.1 + 2, acc.2)
    else (acc.1, acc.2 ++ ["Implementation should include test cases"])
  let acc :=
    if strContains contentL "error" || strContains contentL "exception" then (acc.1 + 1, acc.2)
    else (acc.1, acc.2 ++ ["Implementation should consider error handling"])
  let acc :=
    if strContains contentL "api" || strContains contentL "database" then (acc.1 + 1, acc.2)
    else (acc.1, acc.2 ++ ["Implementation should describe integration points"])
  mkValidationResult acc.1 acc.2 "Implementation meets all requirements"

/-- Embeds `ValidationManager.validate_test_plan_content` (the
`implementations` parameter is taken but never read, as in the source). -/
def validate_test_plan_content (content : String) (_implementations : List Item) :
    ValidationResult :=
  let contentL := toLowerStr content
  let acc := ["Test Scope", "Test Strategy", "Test Cases",
    "Exit Criteria"].foldl (sectionCheck contentL) (0, [])
  let found_types := ["unit", "integration", "system"].filter
    (fun t => strContains contentL t)
  let acc := (acc.1 + found_types.length, acc.2)
  let acc :=
    if found_types.length < 2 then
      (acc.1, acc.2 ++ ["Test plan should include multiple test types (unit, integration, system)"])
    else acc
  let acc :=
    if strContains contentL "test case" || strContains contentL "scenario" then
      (acc.1 + 1, acc.2)
    else (acc.1, acc.2 ++ ["Test plan should include specific test cases or scenarios"])
  let acc :=
    if strContains contentL "acceptance" || strContains contentL "criteria" then
      (acc.1 + 1, acc.2)
    else (acc.1, acc.2 ++ ["Test cases should have acceptance criteria"])
  mkValidationResult acc.1 acc.2 "Test plan meets all requirements"

/-- Embeds `ValidationManager.validate_requirements_review`. -/
def validate_requirements_review (content : String) (specs : List Item) :
    ValidationResult :=
  let contentL := toLowerStr content
  let acc := ["Review Scope", "Requirements Assessment", "Identified Issues",
    "Recommendations"].foldl (sectionCheck contentL) (0, [])
  let spec_titles := specs.map (fun s => toLowerStr s.title)
  let acc :=
    if spec_titles.any (fun t => strContains contentL t) then (acc.1 + 1, acc.2)
    else (acc.1, acc.2 ++ ["Requirements review should reference the specifications being reviewed"])
  let acc :=
    if strContains contentL "priority" || strContains contentL "high" ||
        strContains contentL "medium" then (acc.1 + 1, acc.2)
    else (acc.1, acc.2 ++ ["Issues should be prioritized (High, Medium, Low)"])
  mkValidationResult acc.1 acc.2 "Requirements review meets all requirements"

/-- Embeds `ValidationManager.validate_technical_spec_content`. -/
def validate_technical_spec_content (content : String) (tech_designs : List Item) :
    ValidationResult :=
  let contentL := toLowerStr content
  let acc := ["Implementation Details", "Interfaces", "Error Handling",
    "Testing Strategy"].foldl (sectionCheck contentL) (0, [])
  let design_titles := tech_designs.map (fun d => toLowerStr d.title)
  let acc :=
    if design_titles.any (fun t => strContains contentL t) then (acc.1 + 1, acc.2)
    else (acc.1, acc.2 ++ ["Technical specification should reference the architecture design"])
  let acc :=
    if strContains contentL "api" || strContains contentL "database" ||
        strContains contentL "interface" then (acc.1 + 1, acc.2)
    else (acc.1, acc.2 ++ ["Technical specification should include implementation details"])
  mkValidationResult acc.1 acc.2 "Technical specification meets all requirements"

/-- Embeds `ValidationManager.validate_code_content`. -/
def validate_code_content (content : String) (implementations : List Item) :
    ValidationResult :=
  let contentL := toLowerStr content
  let acc : Nat × List String :=
    if strContains content "```" || strContains contentL "class" ||
        strContains contentL "def" then (3, [])
    else (0, ["Code implementation should include actual code examples"])
  let acc :=
    if strContains contentL "error" || strContains contentL "exception" ||
        strContains contentL "try" then (acc.1 + 2, acc.2)
    else (acc.1, acc.2 ++ ["Code should include error handling"])
  let acc :=
    if strContains contentL "test" then (acc.1 + 2, acc.2)
    else (acc.1, acc.2 ++ ["Implementation should include tests"])
  let impl_titles := implementations.map (fun i => toLowerStr i.title)
  let acc :=
    if impl_titles.any (fun t => strContains contentL t) then (acc.1 + 2, acc.2)
    else (acc.1, acc.2 ++ ["Code should reference the features being implemented"])
  mkValidationResult acc.1 acc.2 "Code implementation meets all requirements"

/-- Embeds `ValidationManager.validate_test_content`. -/
def validate_test_content (content : String) (implementations : List Item) :
    ValidationResult :=
  let contentL := toLowerStr content
  let acc : Nat × List String :=
    if strContains contentL "test" &&
        (strContains contentL "assert" || strContains contentL "unittest") then (3, [])
    else (0, ["Tests should include proper test structure and assertions"])
  let found_types := ["unit", "integration", "mock"].filter
    (fun t => strContains contentL t)
  let acc := (acc.1 + found_types.length, acc.2)
  let acc :=
    if found_types.length < 1 then
      (acc.1, acc.2 ++ ["Tests should include unit tests and/or integration tests"])
    else acc
  let impl_titles := implementations.map (fun i => toLowerStr i.title)
  let acc :=
    if impl_titles.any (fun t => strContains contentL t) then (acc.1 + 2, acc.2)
    else (acc.1, acc.2 ++ ["Tests should reference the implementations being tested"])
  let acc :=
    if strContains contentL "setup" || strContains contentL "fixture" ||
        strContains contentL "mock" then (acc.1 + 2, acc.2)
    else (acc.1, acc.2 ++ ["Tests should include proper setup and data preparation"])
  mkValidationResult acc.1 acc.2 "Test implementation meets all requirements"

/-! ## `template_manager.py`

The guidance and template texts are rendered from YAML files that are
not part of the source tree (the spec excludes the prose rendering as an
external collaborator).  Each rendered text is therefore modelled as a
fixed string; what matters to every claim is only which template a
response consists of, never its prose.  Issue strings of the validators
that contain quote characters in the source are paraphrased without them
above, keeping one issue string per failed check. -/

/-- Modelled from the spec: the guidance document
`get_spec_creation_guidance` renders (template YAML missing from src). -/
def get_spec_creation_guidance (title description : String) : String :=
  "[guidance] create_spec: " ++ title ++ " / " ++ description

/-- Modelled from the spec: the guidance document
`get_review_requirements_guidance` renders; the source passes `content`
as its second argument. -/
def get_review_requirements_guidance (title content : String) : String :=
  "[guidance] review_requirements: " ++ title ++ " / " ++ content

/-- Modelled from the spec: the guidance document
`get_architecture_guidance` renders. -/
def get_architecture_guidance (title description : String) : String :=
  "[guidance] design_system: " ++ title ++ " / " ++ description

/-- The guidance branch of `_handle_create_technical_spec`
(`tool_handlers.py:486`) calls
`TemplateManager.get_technical_spec_guidance`, a method the fully
staged `template_manager.py` never defines (and the class has no
dynamic attribute hook), so that branch always raises
`AttributeError`; the top-level except of `call_tool`
(`tool_handlers.py:95-100`) surfaces it as
`Error executing tool create_technical_spec: ` followed by the
exception text.  The Python exception text carries quote characters,
elided here; no claim inspects it.  No state is mutated before the
raise, so the handler returning this response models the raise being
caught at the top of `call_tool`. -/
def technicalSpecGuidanceError : String :=
  "Error executing tool create_technical_spec: TemplateManager object has no attribute get_technical_spec_guidance"

/-- Modelled from the spec: the guidance document
`get_implementation_guidance` renders. -/
def get_implementation_guidance (title description : String) : String :=
  "[guidance] implement_feature: " ++ title ++ " / " ++ description

/-- Modelled from the spec: the guidance document
`get_code_writing_guidance` renders. -/
def get_code_writing_guidance (title description : String) : String :=
  "[guidance] write_code: " ++ title ++ " / " ++ description

/-- Modelled from the spec: the guidance document
`get_test_creation_guidance` renders. -/
def get_test_creation_guidance (title description : String) : String :=
  "[guidance] create_tests: " ++ title ++ " / " ++ description

/-- Modelled from the spec: the guidance document
`get_test_plan_guidance` renders. -/
def get_test_plan_guidance (title description : String) : String :=
  "[guidance] create_test_plan: " ++ title ++ " / " ++ description

/-- Modelled from the spec: the static spec template appended to
`create_spec` validation-failure responses. -/
def get_spec_template : String := "[template] specification"

/-- Modelled from the spec: the static system-design template appended
to `design_system` validation-failure responses. -/
def get_system_design_template : String := "[template] system design"

/-- Modelled from the spec: the static feature template appended to
`implement_feature` validation-failure responses. -/
def get_feature_template : String := "[template] feature"

/-- Modelled from the spec: the static test-plan template appended to
`create_test_plan` validation-failure responses. -/
def get_test_plan_template : String := "[template] test plan"

/-- Modelled from the spec: the static code template appended to
`write_code` validation-failure responses. -/
def get_code_template : String := "[template] code"

/-- Embeds `get_role_switching_template`, from the fallback template in
`template_manager.py` (the only role-switch template present in src). -/
def get_role_switching_template (new_role role_description : String)
    (available_tools : List String) : String :=
  "# Role Switch: " ++ new_role ++ "\n\n## Role Information\n- **Role**: " ++ new_role ++
    "\n- **Description**: " ++ role_description ++ "\n- **Available Tools**: " ++
    String.intercalate ", " available_tools

/-- Embeds `get_project_status_template` renders its template against a fixed
placeholder context that contains no project data, so its value is one
fixed string.  The text is the fallback template in src rendered with no
variables bound; the only property the claims use is that the value does
not depend on the project state. -/
def get_project_status_template : String := "# Project Status\n\n## Overview\n"

/-- Modelled from the spec: `parse_gherkin` delegates to the external
grammar collaborator (a black box per the spec); its textual response is
a function of `feature_content` alone and is inspected by no claim. -/
def parse_gherkin_response (feature_content : String) : String :=
  "[gherkin] " ++ feature_content

/-! ## `tool_handlers.py` -/

/-- The `arguments` dict of a tool call; a missing key is `none`
(`arguments.get(key, "")` becomes `getD ""`). -/
structure Args where
  title : Option String := none
  description : Option String := none
  content : Option String := none
  role : Option String := none
  feature_content : Option String := none

/-- The process-wide mutable state the handlers read and write: the
current role (`RoleManager.current_role`, initially product_manager) and
the project store. -/
structure ServerState where
  current_role : String := "product_manager"
  project : ProjectState := {}

/-- The content gate repeated at the top of the eight validation-gated
handlers: `if not content or content.lower() in ["help", "guide",
"template", ""]`. -/
def guidanceRequested (content : String) : Bool :=
  content == "" ||
    decide (toLowerStr content ∈ (["help", "guide", "template", ""] : List String))

/-- Embeds `ToolHandlers._get_tool_role`: first role (in dict order) owning the
tool, with `"_"` replaced by `" "`; `"unknown"` when no role owns it. -/
def get_tool_role (tool_name : String) : String :=
  if tool_name ∈ roleTools "product_manager" then "product manager"
  else if tool_name ∈ roleTools "architect" then "architect"
  else if tool_name ∈ roleTools "developer" then "developer"
  else if tool_name ∈ roleTools "tester" then "tester"
  else "unknown"

/-- Embeds `ToolHandlers._get_tool_category`. -/
def get_tool_category (tool_name : String) : String :=
  if tool_name ∈ (["create_spec", "review_requirements"] : List String) then
    "specifications"
  else if tool_name ∈ (["design_system", "create_technical_spec"] : List String) then
    "technical_designs"
  else if tool_name ∈ (["implement_feature", "write_code", "create_tests"] : List String) then
    "code_implementations"
  else if tool_name ∈ (["create_test_plan"] : List String) then "test_plans"
  else if tool_name ∈ (["execute_tests", "generate_test_reports"] : List String) then
    "test_results"
  else "general"

/-- Embeds `ToolHandlers._get_tool_action` (`"Item created"` default). -/
def get_tool_action (tool_name : String) : String :=
  if tool_name = "create_spec" then "Specification created"
  else if tool_name = "review_requirements" then "Requirement review created"
  else if tool_name = "design_system" then "Technical design created"
  else if tool_name = "create_technical_spec" then "Technical design created"
  else if tool_name = "implement_feature" then "Code implementation created"
  else if tool_name = "write_code" then "Code implementation created"
  else if tool_name = "create_tests" then "Code implementation created"
  else if tool_name = "create_test_plan" then "Test plan created"
  else if tool_name = "execute_tests" then "Test result recorded"
  else if tool_name = "generate_test_reports" then "Test result recorded"
  else "Item created"

/-- Embeds `_handle_switch_role`: a known role id is installed as the current
role; anything else (including a missing `role` argument) leaves the
state unchanged and lists the valid ids. -/
def handle_switch_role (s : ServerState) (args : Args) : ServerState × String :=
  match args.role with
  | some new_role =>
    if new_role ∈ roleIds then
      ({ s with current_role := new_role },
        get_role_switching_template new_role (roleDescription new_role)
          (roleTools new_role))
    else (s, "Invalid role. Available roles: " ++ String.intercalate ", " roleIds)
  | none => (s, "Invalid role. Available roles: " ++ String.intercalate ", " roleIds)

/-- Embeds `_handle_get_project_status`: the source computes
`status = project_state.get_status()` and adds `current_role` to that
dict, then discards it and returns only the state-independent rendered
template. -/
def handle_get_project_status (s : ServerState) : ServerState × String :=
  (s, get_project_status_template)

/-- Embeds `_handle_basic_tool` (the `handler_map` fallback): stores a minimal
item without any validation. -/
def handle_basic_tool (s : ServerState) (name : String) (args : Args) :
    ServerState × String :=
  let item := Item.basic (args.title.getD "") (args.description.getD "")
    (args.content.getD "") s.current_role "now"
  let category := get_tool_category name
  ({ s with project := (s.project.add_item category item).1 },
    get_tool_action name ++ ": " ++ item.title)

/-- Embeds `_handle_create_spec`.  Success-response next-step prose is elided
after the quality-score line; no claim inspects it. -/
def handle_create_spec (s : ServerState) (args : Args) : ServerState × String :=
  let title := args.title.getD ""
  let description := args.description.getD ""
  let content := args.content.getD ""
  if guidanceRequested content then
    (s, get_spec_creation_guidance title description)
  else
    let validation_result := validate_spec_content content
    if !validation_result.valid then
      (s, "❌ Specification Validation Failed:\n" ++ validation_result.message ++
        "\n\n" ++ get_spec_template)
    else
      let item := Item.scored title description content s.current_role "now" true
        validation_result.score CrossRef.noRef
      ({ s with project := (s.project.add_item "specifications" item).1 },
        "✅ Specification Created and Validated: " ++ title ++
          "\n\n📊 Quality Score: " ++ toString validation_result.score ++ "/10")

/-- Embeds `_handle_design_system`. -/
def handle_design_system (s : ServerState) (args : Args) : ServerState × String :=
  let title := args.title.getD ""
  let description := args.description.getD ""
  let content := args.content.getD ""
  if guidanceRequested content then
    (s, get_architecture_guidance title description)
  else
    let validation_result := validate_architecture_content content
    if !validation_result.valid then
      (s, "❌ Architecture Design Validation Failed:\n" ++ validation_result.message ++
        "\n\n" ++ get_system_design_template)
    else
      let item := Item.scored title description content s.current_role "now" true
        validation_result.score CrossRef.noRef
      ({ s with project := (s.project.add_item "technical_designs" item).1 },
        "✅ Architecture Design Created: " ++ title ++
          "\n\n📊 Quality Score: " ++ toString validation_result.score ++ "/10")

/-- Embeds `_handle_implement_feature`. -/
def handle_implement_feature (s : ServerState) (args : Args) : ServerState × String :=
  let title := args.title.getD ""
  let description := args.description.getD ""
  let content := args.content.getD ""
  if guidanceRequested content then
    (s, get_implementation_guidance title description)
  else
    let specs := s.project.get_items "specifications"
    let tech_designs := s.project.get_items "technical_designs"
    if specs.isEmpty then
      (s, "❌ No specifications found. Please create specifications first using create_spec().")
    else
      let validation_result := validate_implementation_content content specs tech_designs
      if !validation_result.valid then
        (s, "❌ Implementation Validation Failed:\n" ++ validation_result.message ++
          "\n\n" ++ get_feature_template)
      else
        let item := Item.scored title description content s.current_role "now" true
          validation_result.score (CrossRef.based_on_specs (specs.map Item.title))
        ({ s with project := (s.project.add_item "code_implementations" item).1 },
          "✅ Feature Implementation Created: " ++ title ++
            "\n\n📊 Quality Score: " ++ toString validation_result.score ++ "/10")

/-- Embeds `_handle_create_test_plan`. -/
def handle_create_test_plan (s : ServerState) (args : Args) : ServerState × String :=
  let title := args.title.getD ""
  let description := args.description.getD ""
  let content := args.content.getD ""
  if guidanceRequested content then
    (s, get_test_plan_guidance title description)
  else
    let implementations := s.project.get_items "code_implementations"
    if implementations.isEmpty then
      (s, "❌ No implementations found to test. Please implement features first using implement_feature().")
    else
      let validation_result := validate_test_plan_content content implementations
      if !validation_result.valid then
        (s, "❌ Test Plan Validation Failed:\n" ++ validation_result.message ++
          "\n\n" ++ get_test_plan_template)
      else
        let item := Item.scored title description content s.current_role "now" true
          validation_result.score
          (CrossRef.testing_implementations (implementations.map Item.title))
        ({ s with project := (s.project.add_item "test_plans" item).1 },
          "✅ Test Plan Created: " ++ title ++
            "\n\n📊 Quality Score: " ++ toString validation_result.score ++ "/10")

/-- Embeds `_handle_review_requirements` (its guidance call passes `content`,
not `description`, as in the source). -/
def handle_review_requirements (s : ServerState) (args : Args) : ServerState × String :=
  let title := args.title.getD ""
  let description := args.description.getD ""
  let content := args.content.getD ""
  if guidanceRequested content then
    (s, get_review_requirements_guidance title content)
  else
    let specs := s.project.get_items "specifications"
    if specs.isEmpty then
      (s, "❌ No specifications found to review. Please create specifications first using create_spec().")
    else
      let validation_result := validate_requirements_review content specs
      if !validation_result.valid then
        (s, "❌ Requirements Review Validation Failed:\n" ++ validation_result.message)
      else
        let item := Item.scored title description content s.current_role "now" true
          validation_result.score (CrossRef.reviewing_specs (specs.map Item.title))
        ({ s with project := (s.project.add_item "specifications" item).1 },
          "✅ Requirements Review Created: " ++ title ++
            "\n\n📊 Quality Score: " ++ toString validation_result.score ++ "/10")

/-- Embeds `_handle_create_technical_spec`.  Its guidance branch calls
the nonexistent `TemplateManager.get_technical_spec_guidance`, so it
raises and the response is the surfaced internal error
(`technicalSpecGuidanceError`) — not a guidance document; the rest of
the pipeline (prerequisite, validation, commit) is as in the source. -/
def handle_create_technical_spec (s : ServerState) (args : Args) : ServerState × String :=
  let title := args.title.getD ""
  let description := args.description.getD ""
  let content := args.content.getD ""
  if guidanceRequested content then
    (s, technicalSpecGuidanceError)
  else
    let tech_designs := s.project.get_items "technical_designs"
    if tech_designs.isEmpty then
      (s, "❌ No architecture designs found. Please create system architecture first using design_system().")
    else
      let validation_result := validate_technical_spec_content content tech_designs
      if !validation_result.valid then
        (s, "❌ Technical Specification Validation Failed:\n" ++ validation_result.message)
      else
        let item := Item.scored title description content s.current_role "now" true
          validation_result.score (CrossRef.based_on_designs (tech_designs.map Item.title))
        ({ s with project := (s.project.add_item "technical_designs" item).1 },
          "✅ Technical Specification Created: " ++ title ++
            "\n\n📊 Quality Score: " ++ toString validation_result.score ++ "/10")

/-- Embeds `_handle_write_code`. -/
def handle_write_code (s : ServerState) (args : Args) : ServerState × String :=
  let title := args.title.getD ""
  let description := args.description.getD ""
  let content := args.content.getD ""
  if guidanceRequested content then
    (s, get_code_writing_guidance title description)
  else
    let implementations := s.project.get_items "code_implementations"
    if implementations.isEmpty then
      (s, "❌ No feature implementations found. Please implement features first using implement_feature().")
    else
      let validation_result := validate_code_content content implementations
      if !validation_result.valid then
        (s, "❌ Code Validation Failed:\n" ++ validation_result.message ++
          "\n\n" ++ get_code_template)
      else
        let item := Item.scored title description content s.current_role "now" true
          validation_result.score
          (CrossRef.implementing_features (implementations.map Item.title))
        ({ s with project := (s.project.add_item "code_implementations" item).1 },
          "✅ Code Implementation Created: " ++ title ++
            "\n\n📊 Quality Score: " ++ toString validation_result.score ++ "/10")

/-- Embeds `_handle_create_tests` (commits to `code_implementations`, as the
source does). -/
def handle_create_tests (s : ServerState) (args : Args) : ServerState × String :=
  let title := args.title.getD ""
  let description := args.description.getD ""
  let content := args.content.getD ""
  if guidanceRequested content then
    (s, get_test_creation_guidance title description)
  else
    let implementations := s.project.get_items "code_implementations"
    if implementations.isEmpty then
      (s, "❌ No implementations found to test. Please implement features first using implement_feature() or write_code().")
    else
      let validation_result := validate_test_content content implementations
      if !validation_result.valid then
        (s, "❌ Test Creation Validation Failed:\n" ++ validation_result.message)
      else
        let item := Item.scored title description content s.current_role "now" true
          validation_result.score
          (CrossRef.testing_implementations (implementations.map Item.title))
        ({ s with project := (s.project.add_item "code_implementations" item).1 },
          "✅ Tests Created: " ++ title ++
            "\n\n📊 Quality Score: " ++ toString validation_result.score ++ "/10")

/-- Embeds `_handle_execute_tests`: no content gate and no validation; after
the test-plan prerequisite check it stores a result item whose `results`
and `quality_metrics` entries are fixed constants.  The success-response
prose after the title is elided; no claim inspects it. -/
def handle_execute_tests (s : ServerState) (args : Args) : ServerState × String :=
  let title := args.title.getD ""
  let description := args.description.getD ""
  let content := args.content.getD ""
  let test_plans := s.project.get_items "test_plans"
  if test_plans.isEmpty then
    (s, "❌ No test plans found. Please create test plans first using create_test_plan().")
  else
    let execution_result := Item.execution title description content
      (test_plans.map Item.title)
      { total_tests := 156, passed := 148, failed := 8, skipped := 0, pass_rate := "94.9%" }
      { code_coverage := "92.3%", performance_score := "8.7/10", security_score := "9.1/10" }
      s.current_role "now"
    ({ s with project := (s.project.add_item "test_results" execution_result).1 },
      "✅ Tests Executed: " ++ title)

/-- Embeds `_handle_generate_test_reports`: no content gate and no validation;
stores a report embedding the stored `test_results` list and fixed
assessment text. -/
def handle_generate_test_reports (s : ServerState) (args : Args) : ServerState × String :=
  let title := args.title.getD ""
  let description := args.description.getD ""
  let content := args.content.getD ""
  let test_results := s.project.get_items "test_results"
  if test_results.isEmpty then
    (s, "❌ No test results found. Please execute tests first using execute_tests().")
  else
    let report := Item.report title description content test_results
      { overall_quality_score := "8.9/10"
        strengths := ["High test coverage (>92%)", "Strong security measures",
          "Good performance characteristics"]
        improvement_areas := ["Fix failing test cases", "Improve error handling",
          "Add edge case testing"] }
      ["Address remaining test failures", "Implement continuous integration",
        "Add automated security scanning", "Performance optimization opportunities"]
      s.current_role "now"
    ({ s with project := (s.project.add_item "test_results" report).1 },
      "✅ Test Report Generated: " ++ title)

/-- Embeds `_handle_role_specific_tool`: permission check first, then the
`handler_map` dispatch with `_handle_basic_tool` as its fallback. -/
def handle_role_specific_tool (s : ServerState) (name : String) (args : Args) :
    ServerState × String :=
  let current_role := s.current_role
  if !can_use_tool name current_role then
    (s, "This tool is only available to " ++ get_tool_role name ++
      "s. Current role: " ++ current_role)
  else if name = "create_spec" then handle_create_spec s args
  else if name = "review_requirements" then handle_review_requirements s args
  else if name = "design_system" then handle_design_system s args
  else if name = "create_technical_spec" then handle_create_technical_spec s args
  else if name = "implement_feature" then handle_implement_feature s args
  else if name = "write_code" then handle_write_code s args
  else if name = "create_tests" then handle_create_tests s args
  else if name = "create_test_plan" then handle_create_test_plan s args
  else if name = "execute_tests" then handle_execute_tests s args
  else if name = "generate_test_reports" then handle_generate_test_reports s args
  else handle_basic_tool s name args

/-- Embeds `ToolHandlers.call_tool`: the three general tools, then the
role-specific pipeline. -/
def call_tool (s : ServerState) (name : String) (args : Args) : ServerState × String :=
  if name = "switch_role" then handle_switch_role s args
  else if name = "get_project_status" then handle_get_project_status s
  else if name = "parse_gherkin" then
    (s, parse_gherkin_response (args.feature_content.getD ""))
  else handle_role_specific_tool s name args

/-! ## Statement-side characterizations

These definitions restate, per tool name, which validator runs, which
prerequisite category is checked, which category receives the commit,
which guidance document is returned and which role owns the tool.  They
follow the wording of the spec and are used only in theorem statements, to be
compared with the behaviour of `call_tool`. -/

/-- The three general tools. -/
def generalTools : List String := ["switch_role", "get_project_status", "parse_gherkin"]

/-- All ten role-owned tool names. -/
def allRoleTools : List String :=
  ["create_spec", "review_requirements", "design_system", "create_technical_spec",
   "implement_feature", "write_code", "create_tests", "create_test_plan",
   "execute_tests", "generate_test_reports"]

/-- The eight role tools whose handlers run the content gate and a
validation pass (spec 4.2 steps 2 and 4). -/
def gatedTools : List String :=
  ["create_spec", "review_requirements", "design_system", "create_technical_spec",
   "implement_feature", "write_code", "create_tests", "create_test_plan"]

/-- Which validator the handler of a gated tool runs, with the stored
prerequisite artifacts it receives. -/
def validatorFor (name content : String) (p : ProjectState) : ValidationResult :=
  if name = "create_spec" then validate_spec_content content
  else if name = "review_requirements" then
    validate_requirements_review content p.specifications
  else if name = "design_system" then validate_architecture_content content
  else if name = "create_technical_spec" then
    validate_technical_spec_content content p.technical_designs
  else if name = "implement_feature" then
    validate_implementation_content content p.specifications p.technical_designs
  else if name = "write_code" then validate_code_content content p.code_implementations
  else if name = "create_tests" then validate_test_content content p.code_implementations
  else if name = "create_test_plan" then
    validate_test_plan_content content p.code_implementations
  else { valid := true, score := 0, message := "" }

/-- Whether the prerequisite category of a gated tool is non-empty (always
true for the two tools without a prerequisite). -/
def prereqSatisfied (name : String) (p : ProjectState) : Bool :=
  if name = "review_requirements" then !p.specifications.isEmpty
  else if name = "create_technical_spec" then !p.technical_designs.isEmpty
  else if name = "implement_feature" then !p.specifications.isEmpty
  else if name = "write_code" then !p.code_implementations.isEmpty
  else if name = "create_tests" then !p.code_implementations.isEmpty
  else if name = "create_test_plan" then !p.code_implementations.isEmpty
  else true

/-- The category list a gated tool commits to, read off a project state. -/
def committedList (name : String) (p : ProjectState) : List Item :=
  if name = "create_spec" ∨ name = "review_requirements" then p.specifications
  else if name = "design_system" ∨ name = "create_technical_spec" then p.technical_designs
  else if name = "implement_feature" ∨ name = "write_code" ∨ name = "create_tests" then
    p.code_implementations
  else if name = "create_test_plan" then p.test_plans
  else []

/-- The cross-reference key the committed artifact of a gated tool carries. -/
def refsFor (name : String) (p : ProjectState) : CrossRef :=
  if name = "review_requirements" then
    CrossRef.reviewing_specs (p.specifications.map Item.title)
  else if name = "create_technical_spec" then
    CrossRef.based_on_designs (p.technical_designs.map Item.title)
  else if name = "implement_feature" then
    CrossRef.based_on_specs (p.specifications.map Item.title)
  else if name = "write_code" then
    CrossRef.implementing_features (p.code_implementations.map Item.title)
  else if name = "create_tests" then
    CrossRef.testing_implementations (p.code_implementations.map Item.title)
  else if name = "create_test_plan" then
    CrossRef.testing_implementations (p.code_implementations.map Item.title)
  else CrossRef.noRef

/-- The terminal response of the guidance branch of each gated tool:
seven return their guidance document (`review_requirements` passes
`content` where the others pass `description`, as in the source);
`create_technical_spec` raises inside its guidance branch and the
surfaced internal-error response comes back instead of a guidance
document. -/
def guidanceFor (name title description content : String) : String :=
  if name = "create_spec" then get_spec_creation_guidance title description
  else if name = "review_requirements" then get_review_requirements_guidance title content
  else if name = "design_system" then get_architecture_guidance title description
  else if name = "create_technical_spec" then technicalSpecGuidanceError
  else if name = "implement_feature" then get_implementation_guidance title description
  else if name = "write_code" then get_code_writing_guidance title description
  else if name = "create_tests" then get_test_creation_guidance title description
  else if name = "create_test_plan" then get_test_plan_guidance title description
  else ""

/-- The human-readable owning role of each of the ten role tools. -/
def owningRoleText (name : String) : String :=
  if name = "create_spec" ∨ name = "review_requirements" then "product manager"
  else if name = "design_system" ∨ name = "create_technical_spec" then "architect"
  else if name = "implement_feature" ∨ name = "write_code" ∨ name = "create_tests" then
    "developer"
  else "tester"

/-- The five per-category counts in the fixed workflow order. -/
def categoryCounts (p : ProjectState) : List Nat :=
  [p.specifications.length, p.technical_designs.length, p.code_implementations.length,
   p.test_plans.length, p.test_results.length]

/-- Number of non-empty categories among the five. -/
def nonEmptyCategories (p : ProjectState) : Nat :=
  ((categoryCounts p).filter (fun n => decide (0 < n))).length

/-- Stage names in the fixed workflow order (spec 8: the first empty
category in order names the stage, e.g. `"Development"` when
`code_implementations` is the first empty one). -/
def stageNames : List String := ["Requirements", "Architecture", "Development", "Testing", "Execution"]

/-- First pair with a zero count gives its stage name; `"Complete"`
when no category is empty. -/
def firstEmptyStage : List (Nat × String) → String
  | [] => "Complete"
  | (n, nm) :: rest => if n = 0 then nm else firstEmptyStage rest

/-- The derived stage as the spec words it. -/
def specStage (p : ProjectState) : String :=
  if (categoryCounts p).sum = 0 then "Not Started"
  else firstEmptyStage ((categoryCounts p).zip stageNames)

/-! ## Helper lemmas -/

theorem toLowerStr_length (s : String) : (toLowerStr s).length = s.length := by
  rw [toLowerStr, String.length_mk, List.length_map]
  rfl

theorem listStartsWith_append (m b : List Char) : listStartsWith m (m ++ b) = true := by
  induction m with
  | nil => rfl
  | cons c cs ih => simp [listStartsWith, ih]

theorem listIsSub_cons (n h : List Char) (c : Char) (hsub : listIsSub n h = true) :
    listIsSub n (c :: h) = true := by
  simp [listIsSub, hsub]

theorem listIsSub_self_append (m b : List Char) : listIsSub m (m ++ b) = true := by
  cases m with
  | nil =>
    cases b with
    | nil => rfl
    | cons c cs => simp [listIsSub, listStartsWith]
  | cons c cs => simp [listIsSub, listStartsWith, listStartsWith_append]

theorem listIsSub_append_left (a n h : List Char) (hsub : listIsSub n h = true) :
    listIsSub n (a ++ h) = true := by
  induction a with
  | nil => simpa using hsub
  | cons c cs ih => simpa using listIsSub_cons n (cs ++ h) c ih

/-- A string occurs in the concatenation `a ++ m ++ b ++ c` of which it
is the second part. -/
theorem strContains_concat4 (a m b c : String) : strContains (a ++ m ++ b ++ c) m = true := by
  have hdata : (a ++ m ++ b ++ c).data = a.data ++ (m.data ++ (b.data ++ c.data)) := by
    simp [String.data_append]
  unfold strContains
  rw [hdata]
  exact listIsSub_append_left _ _ _ (listIsSub_self_append _ _)

/-- A string occurs in a concatenation `a ++ m` of which it is the
final part. -/
theorem strContains_concat2 (a m : String) : strContains (a ++ m) m = true := by
  have hdata : (a ++ m).data = a.data ++ (m.data ++ []) := by
    simp [String.data_append]
  unfold strContains
  rw [hdata]
  exact listIsSub_append_left _ _ _ (listIsSub_self_append _ _)

/-- Content at least 200 characters long is never the empty string nor a
guidance sentinel (the longest sentinel has 8 characters). -/
theorem guidanceRequested_eq_false (content : String) (hlen : 200 ≤ content.length) :
    guidanceRequested content = false := by
  have hne : content ≠ "" := by
    intro h
    rw [h] at hlen
    simp [String.length] at hlen
  have hlow : (toLowerStr content).length = content.length := toLowerStr_length content
  unfold guidanceRequested
  rw [Bool.or_eq_false_iff]
  constructor
  · exact beq_eq_false_iff_ne.mpr hne
  · rw [decide_eq_false_iff_not]
    intro hmem
    simp only [List.mem_cons, List.mem_singleton, List.not_mem_nil, or_false] at hmem
    have : (toLowerStr content).length ≤ 8 := by
      rcases hmem with h | h | h | h <;> rw [h] <;> decide
    omega

/-- Every validator caps its score at 10. -/
theorem validatorFor_score_le_ten (name content : String) (p : ProjectState) :
    (validatorFor name content p).score ≤ 10 := by
  unfold validatorFor
  split_ifs
  all_goals
    first
      | exact Nat.min_le_right _ _
      | simp

/-! ## Concrete states used by witnesses and counterexamples -/

/-- A tester session holding one stored test plan. -/
def testerState : ServerState :=
  { current_role := "tester"
    project := { test_plans := [Item.basic "Login test plan" "plan" "steps" "tester" "now"] } }

/-! ## Claims -/

/-- C4: the spec (and the repository test `test_comprehensive.py`,
which `json.loads` the response and reads the five `.._count` keys)
says `get_project_status` returns the per-category counts plus the
current role plus the derived stage.  The handler computes that status
dict and then discards it, returning the state-independent rendered
template: the response is one fixed string for every project state and
every current role, so it carries no counts, no role and no stage. -/
theorem get_project_status_ignores_project_state (s : ServerState) (args : Args) :
    call_tool s "get_project_status" args = (s, get_project_status_template) := by
  rfl

/-- C9: switching to one of the 4 known role ids installs it as the
current role; any other requested role (including a missing argument)
leaves the current role unchanged and the response lists exactly the 4
valid role ids. -/
theorem switch_role_known_or_rejected (s : ServerState) (args : Args) :
    (∀ r, args.role = some r → r ∈ roleIds →
      call_tool s "switch_role" args =
        ({ s with current_role := r },
          get_role_switching_template r (roleDescription r) (roleTools r))) ∧
    ((∀ r, args.role = some r → r ∉ roleIds) →
      call_tool s "switch_role" args =
        (s, "Invalid role. Available roles: product_manager, architect, developer, tester")) := by
  constructor
  · intro r hr hmem
    simp [call_tool, handle_switch_role, hr, hmem]
  · intro hbad
    cases hor : args.role with
    | none =>
      simp [call_tool, handle_switch_role, hor]
      rfl
    | some r =>
      have hnot : r ∉ roleIds := hbad r hor
      simp [call_tool, handle_switch_role, hor, hnot]
      rfl

/-- Witness for C9: switching to `architect` succeeds and switching to
`bogus` is rejected with the fixed list of the 4 ids. -/
theorem switch_role_known_or_rejected_witness :
    call_tool {} "switch_role" { role := some "architect" } =
      ({ current_role := "architect" },
        get_role_switching_template "architect" (roleDescription "architect")
          (roleTools "architect")) ∧
    call_tool {} "switch_role" { role := some "bogus" } =
      ({}, "Invalid role. Available roles: product_manager, architect, developer, tester") :=
  ⟨(switch_role_known_or_rejected {} { role := some "architect" }).1 "architect" rfl
      (by decide),
    (switch_role_known_or_rejected {} { role := some "bogus" }).2
      (fun r hr => by cases Option.some.inj hr; decide)⟩

/-- C3 counterexample: an unrecognized tool name (`deploy_app`) does NOT
fall through to the generic commit handler — `can_use_tool` is false for
every unknown name, so the permission check rejects it first, nothing is
stored and the response is the permission message (with owning role
`unknown`). -/
theorem unknown_tool_rejected_cex :
    call_tool {} "deploy_app" { title := some "X", description := some "Y", content := some "Z" } =
      ({}, "This tool is only available to unknowns. Current role: product_manager") := by
  rfl

/-- C3 (amended): for every tool name that is neither general nor in any
owned set of any role, the call is rejected by the permission check — the
response names `unknown` as owning role plus the current role, the state
is unchanged and the generic commit handler is never reached. -/
theorem unknown_tool_permission_rejection (s : ServerState) (args : Args) (name : String)
    (hgen : name ∉ generalTools) (hrole : ∀ r, name ∉ roleTools r) :
    call_tool s name args =
      (s, "This tool is only available to unknowns. Current role: " ++ s.current_role) := by
  have h1 : name ≠ "switch_role" := by
    intro h; exact hgen (by simp [generalTools, h])
  have h2 : name ≠ "get_project_status" := by
    intro h; exact hgen (by simp [generalTools, h])
  have h3 : name ≠ "parse_gherkin" := by
    intro h; exact hgen (by simp [generalTools, h])
  have hcan : can_use_tool name s.current_role = false := by
    unfold can_use_tool
    rw [decide_eq_false_iff_not]
    exact hrole _
  simp [call_tool, handle_role_specific_tool, h1, h2, h3, hcan, get_tool_role, hrole]

/-- Witness for C3 (amended) at the concrete unknown name
`mystery_tool` in the tester role. -/
theorem unknown_tool_permission_rejection_witness :
    call_tool { current_role := "tester" } "mystery_tool" {} =
      ({ current_role := "tester" },
        "This tool is only available to unknowns. Current role: tester") :=
  unknown_tool_permission_rejection { current_role := "tester" } {} "mystery_tool"
    (by decide)
    (by intro r; unfold roleTools; split_ifs <;> decide)

/-- C6: a role tool invoked while the current role does not own it is
rejected immediately: the response names the owning role and the current
role, and the state is unchanged (no validation, no commit). -/
theorem role_tool_permission_denied (s : ServerState) (args : Args) (name : String)
    (hmem : name ∈ allRoleTools) (hperm : can_use_tool name s.current_role = false) :
    call_tool s name args =
      (s, "This tool is only available to " ++ owningRoleText name ++
        "s. Current role: " ++ s.current_role) := by
  fin_cases hmem <;>
    simp [call_tool, handle_role_specific_tool, hperm, get_tool_role, owningRoleText,
      roleTools]

/-- Witness for C6: `design_system` called while the current role is the
initial `product_manager` is rejected naming `architect`. -/
theorem role_tool_permission_denied_witness :
    call_tool {} "design_system" {} =
      ({}, "This tool is only available to architects. Current role: product_manager") :=
  role_tool_permission_denied {} {} "design_system" (by decide) (by decide)

/-- C10: `execute_tests` in the tester role with a non-empty test-plan
category appends one execution item to `test_results` whose `results`
and `quality_metrics` entries are the fixed constants 156/148/8/0,
94.9%, 92.3%, 8.7/10, 9.1/10 — for every argument dict, so independent
of the submitted content, and with no content validation run. -/
theorem execute_tests_fixed_results (s : ServerState) (args : Args)
    (hrole : s.current_role = "tester") (hplans : s.project.test_plans ≠ []) :
    (call_tool s "execute_tests" args).1.project.test_results =
      s.project.test_results ++
        [Item.execution (args.title.getD "") (args.description.getD "")
          (args.content.getD "") (s.project.test_plans.map Item.title)
          { total_tests := 156, passed := 148, failed := 8, skipped := 0,
            pass_rate := "94.9%" }
          { code_coverage := "92.3%", performance_score := "8.7/10",
            security_score := "9.1/10" }
          "tester" "now"] := by
  have hempty : s.project.test_plans.isEmpty = false := by
    cases h : s.project.test_plans with
    | nil => exact absurd h hplans
    | cons a l => rfl
  simp [call_tool, handle_role_specific_tool, can_use_tool, roleTools,
    handle_execute_tests, ProjectState.get_items, ProjectState.add_item, hempty, hrole]

/-- Witness for C10 on a tester session holding one test plan. -/
theorem execute_tests_fixed_results_witness :
    (call_tool testerState "execute_tests"
        { title := some "Run", content := some "anything at all" }).1.project.test_results =
      [Item.execution "Run" "" "anything at all" ["Login test plan"]
        { total_tests := 156, passed := 148, failed := 8, skipped := 0, pass_rate := "94.9%" }
        { code_coverage := "92.3%", performance_score := "8.7/10", security_score := "9.1/10" }
        "tester" "now"] := by
  have h := execute_tests_fixed_results testerState
    { title := some "Run", content := some "anything at all" } rfl (by simp [testerState])
  simpa [testerState, Item.title] using h

/-- C1 counterexample: `execute_tests` is a role-specific tool with no
guidance gate — called in the tester role with the sentinel content `""`
it performs the prerequisite check and commits an artifact, so the
item count of the target category changes (0 before, 1 after), contradicting
the claim for this call. -/
theorem execute_tests_ignores_guidance_sentinel_cex :
    (call_tool testerState "execute_tests"
        { title := some "T", description := some "D", content := some "" }
      ).1.project.test_results.length = 1 ∧
    testerState.project.test_results.length = 0 := by
  constructor <;> rfl

/-- C1 (amended): for the eight guidance-gated role tools (all role
tools except `execute_tests` and `generate_test_reports`), a call made
in the owning role whose content is absent, empty, or a case-insensitive
guidance sentinel terminates at the content gate with the state
unchanged — no artifact is created and no prerequisite check is
performed (even when the prerequisite category is empty).  Seven of the
eight return their guidance document; `create_technical_spec` raises
inside its guidance branch (its `TemplateManager` method does not
exist) and returns the surfaced `Error executing tool
create_technical_spec` response instead of a guidance document. -/
theorem gated_tools_guidance_mode (s : ServerState) (args : Args) (name : String)
    (hmem : name ∈ gatedTools) (hperm : can_use_tool name s.current_role = true)
    (hsent : guidanceRequested (args.content.getD "") = true) :
    call_tool s name args =
      (s, guidanceFor name (args.title.getD "") (args.description.getD "")
        (args.content.getD "")) := by
  fin_cases hmem <;>
    simp [call_tool, handle_role_specific_tool, hperm, hsent, guidanceFor,
      handle_create_spec, handle_review_requirements, handle_design_system,
      handle_create_technical_spec, handle_implement_feature, handle_write_code,
      handle_create_tests, handle_create_test_plan]

/-- Witness for C1 (amended): `create_spec` with content `help` in the
product-manager role returns the guidance document, and
`create_technical_spec` with content `template` in the architect role
returns the surfaced internal-error response; both leave the state
unchanged. -/
theorem gated_tools_guidance_mode_witness :
    (call_tool {} "create_spec" { title := some "T", content := some "help" } =
      ({}, get_spec_creation_guidance "T" "")) ∧
    (call_tool { current_role := "architect" } "create_technical_spec"
        { title := some "T", content := some "template" } =
      ({ current_role := "architect" }, technicalSpecGuidanceError)) :=
  ⟨gated_tools_guidance_mode {} { title := some "T", content := some "help" } "create_spec"
      (by decide) (by decide) (by decide),
    gated_tools_guidance_mode { current_role := "architect" }
      { title := some "T", content := some "template" } "create_technical_spec"
      (by decide) (by decide) (by decide)⟩

/-- C5: a role-specific call that reaches the validating step (owning
role, real content, prerequisite category non-empty) and whose
validation pass yields a non-empty issue list terminates rejected: the
state is unchanged — nothing is committed to any category — and the
response contains the validator message, which is the newline-join of
the full issue list. -/
theorem validation_failure_atomic (s : ServerState) (args : Args) (name : String)
    (hmem : name ∈ gatedTools) (hperm : can_use_tool name s.current_role = true)
    (hcontent : guidanceRequested (args.content.getD "") = false)
    (hpre : prereqSatisfied name s.project = true)
    (hinvalid : (validatorFor name (args.content.getD "") s.project).valid = false) :
    (call_tool s name args).1 = s ∧
    strContains (call_tool s name args).2
      (validatorFor name (args.content.getD "") s.project).message = true := by
  fin_cases hmem <;>
    (refine ⟨?_, ?_⟩ <;>
      simp_all [call_tool, handle_role_specific_tool, handle_create_spec,
        handle_review_requirements, handle_design_system, handle_create_technical_spec,
        handle_implement_feature, handle_write_code, handle_create_tests,
        handle_create_test_plan, validatorFor, prereqSatisfied,
        ProjectState.get_items]) <;>
    first
      | exact strContains_concat4 _ _ _ _
      | exact strContains_concat2 _ _

/-- Witness for C5: `create_spec` with the (non-sentinel) content `x`
fails validation; the call leaves the state unchanged and the response
contains the message. -/
theorem validation_failure_atomic_witness :
    (call_tool {} "create_spec" { title := some "T", content := some "x" }).1 = {} ∧
    strContains (call_tool {} "create_spec" { title := some "T", content := some "x" }).2
      (validatorFor "create_spec" "x" {}).message = true :=
  validation_failure_atomic {} { title := some "T", content := some "x" } "create_spec"
    (by decide) (by decide) (by decide) rfl (by decide)

/-- C2 counterexample: the artifact committed by `execute_tests` (an
item appended to `test_results` by a successful tool call) carries no
`quality_score` key and no `validated` key at all, refuting the claim
that every committed artifact has a quality score in [0,10]. -/
theorem execute_tests_item_no_score_cex :
    ((call_tool testerState "execute_tests"
        { title := some "T", description := some "D", content := some "c" }
      ).1.project.test_results.map Item.qualityScore = [none]) ∧
    ((call_tool testerState "execute_tests"
        { title := some "T", description := some "D", content := some "c" }
      ).1.project.test_results.map Item.validatedFlag = [none]) := by
  constructor <;> rfl

/-- C2 (amended): every artifact committed by one of the eight
validation-gated handlers carries `validated = true` and
`quality_score` equal to the validator score, which lies in [0,10];
the commit happens exactly when the validation pass produced zero
issues (an invalid pass leaves the state unchanged).  Artifacts
committed by `execute_tests` and `generate_test_reports` carry neither
key. -/
theorem gated_commit_scored_invariant (s : ServerState) (args : Args) (name : String)
    (hmem : name ∈ gatedTools) (hperm : can_use_tool name s.current_role = true)
    (hcontent : guidanceRequested (args.content.getD "") = false)
    (hpre : prereqSatisfied name s.project = true) :
    ((validatorFor name (args.content.getD "") s.project).valid = true →
      committedList name (call_tool s name args).1.project =
        committedList name s.project ++
          [Item.scored (args.title.getD "") (args.description.getD "")
            (args.content.getD "") s.current_role "now" true
            (validatorFor name (args.content.getD "") s.project).score
            (refsFor name s.project)]) ∧
    ((validatorFor name (args.content.getD "") s.project).valid = false →
      (call_tool s name args).1 = s) ∧
    (validatorFor name (args.content.getD "") s.project).score ≤ 10 := by
  refine ⟨fun hv => ?_, fun hv => ?_, validatorFor_score_le_ten _ _ _⟩ <;>
    fin_cases hmem <;>
    simp_all [call_tool, handle_role_specific_tool, handle_create_spec,
      handle_review_requirements, handle_design_system, handle_create_technical_spec,
      handle_implement_feature, handle_write_code, handle_create_tests,
      handle_create_test_plan, validatorFor, prereqSatisfied, committedList, refsFor,
      ProjectState.get_items, ProjectState.add_item]

/-- A specification text passing every heuristic check, used by
witnesses. -/
def specContentW : String :=
  "Business Value: faster onboarding saves support cost. User Stories: As a new customer, I want a guided signup so that I can start quickly. Acceptance Criteria: Given a visitor, when the form is submitted, then an account exists. Success Metrics: 95% of signups complete in under 3 minutes."

set_option maxRecDepth 40000 in
/-- Witness for C2 (amended): the valid `create_spec` commit appends
one artifact with `validated = true` and score 10. -/
theorem gated_commit_scored_invariant_witness :
    committedList "create_spec" (call_tool {} "create_spec"
        { title := some "Signup spec", content := some specContentW }).1.project =
      committedList "create_spec" ({} : ServerState).project ++
        [Item.scored "Signup spec" "" specContentW "product_manager" "now" true 10
          CrossRef.noRef] :=
  (gated_commit_scored_invariant {} { title := some "Signup spec", content := some specContentW }
    "create_spec" (by decide) (by decide) (by decide) rfl).1 (by decide)

/-- The completed-items sum of the code equals the number of non-empty
categories. -/
theorem progress_items_eq (p : ProjectState) :
    min p.specifications.length 1 + min p.technical_designs.length 1 +
      min p.code_implementations.length 1 + min p.test_plans.length 1 +
      min p.test_results.length 1 = nonEmptyCategories p := by
  have key : ∀ (a : Nat) (l : List Nat),
      (List.filter (fun n => decide (0 < n)) (a :: l)).length =
        min a 1 + (List.filter (fun n => decide (0 < n)) l).length := by
    intro a l
    rcases Nat.eq_zero_or_pos a with rfl | ha
    · simp
    · have hd : decide (0 < a) = true := decide_eq_true ha
      simp only [List.filter_cons, hd, if_pos, List.length_cons]
      omega
  unfold nonEmptyCategories categoryCounts
  rw [key, key, key, key, key]
  simp only [List.filter_nil, List.length_nil]
  omega

/-- C7: for every project state the stage of the progress summary is the
spec stage (`Not Started` at total 0, otherwise the stage of the
first empty category in the fixed order, or `Complete`) and its
progress percentage is (non-empty categories) / 5 × 100. -/
theorem progress_summary_characterization (p : ProjectState) :
    (p.get_progress_summary).stage = specStage p ∧
    (p.get_progress_summary).progress_percentage =
      (nonEmptyCategories p : ℚ) / 5 * 100 := by
  have hitems := progress_items_eq p
  have hsum : (categoryCounts p).sum =
      p.specifications.length + p.technical_designs.length +
        p.code_implementations.length + p.test_plans.length + p.test_results.length := by
    simp [categoryCounts]
    omega
  by_cases htot : p.specifications.length + p.technical_designs.length +
      p.code_implementations.length + p.test_plans.length + p.test_results.length = 0
  · have hz : nonEmptyCategories p = 0 := by
      have ha : p.specifications.length = 0 := by omega
      have hb : p.technical_designs.length = 0 := by omega
      have hc : p.code_implementations.length = 0 := by omega
      have hd : p.test_plans.length = 0 := by omega
      have he : p.test_results.length = 0 := by omega
      simp [nonEmptyCategories, categoryCounts, ha, hb, hc, hd, he]
    constructor
    · have hcode : (p.get_progress_summary).stage = "Not Started" := by
        simp only [ProjectState.get_progress_summary, ProjectState.get_status]
        rw [if_pos htot]
      have hspec : specStage p = "Not Started" := by
        unfold specStage
        rw [if_pos (by omega : (categoryCounts p).sum = 0)]
      rw [hcode, hspec]
    · have hcode : (p.get_progress_summary).progress_percentage = 0 := by
        simp only [ProjectState.get_progress_summary, ProjectState.get_status]
        rw [if_pos htot]
      rw [hcode, hz]
      norm_num
  · constructor
    · have hcode : (p.get_progress_summary).stage =
          (if p.specifications.length = 0 then "Requirements"
          else if p.technical_designs.length = 0 then "Architecture"
          else if p.code_implementations.length = 0 then "Development"
          else if p.test_plans.length = 0 then "Testing"
          else if p.test_results.length = 0 then "Execution"
          else "Complete") := by
        simp only [ProjectState.get_progress_summary, ProjectState.get_status]
        rw [if_neg htot]
      have hspec : specStage p =
          (if p.specifications.length = 0 then "Requirements"
          else if p.technical_designs.length = 0 then "Architecture"
          else if p.code_implementations.length = 0 then "Development"
          else if p.test_plans.length = 0 then "Testing"
          else if p.test_results.length = 0 then "Execution"
          else "Complete") := by
        unfold specStage
        rw [if_neg (by omega : ¬ (categoryCounts p).sum = 0)]
        simp [categoryCounts, stageNames, List.zip, firstEmptyStage]
      rw [hcode, hspec]
    · have hcode : (p.get_progress_summary).progress_percentage =
          ((min p.specifications.length 1 + min p.technical_designs.length 1 +
            min p.code_implementations.length 1 + min p.test_plans.length 1 +
            min p.test_results.length 1 : Nat) : ℚ) / 5 * 100 := by
        simp only [ProjectState.get_progress_summary, ProjectState.get_status]
        rw [if_neg htot]
      rw [hcode, hitems]

/-- C8: a `create_spec` call in the product-manager role whose content
contains, case-insensitively, all four required section headers, the
user-story phrases, the given-when-then phrases and a `%` sign, with
length between 200 and 5000 characters, validates with `valid = true`
and score 10, and appends exactly one artifact to `specifications`. -/
theorem create_spec_full_marks (s : ServerState) (args : Args) (content : String)
    (hrole : s.current_role = "product_manager") (hcontent : args.content = some content)
    (h1 : strContains (toLowerStr content) (toLowerStr "Business Value") = true)
    (h2 : strContains (toLowerStr content) (toLowerStr "User Stories") = true)
    (h3 : strContains (toLowerStr content) (toLowerStr "Acceptance Criteria") = true)
    (h4 : strContains (toLowerStr content) (toLowerStr "Success Metrics") = true)
    (h5 : strContains (toLowerStr content) "as a" = true)
    (h6 : strContains (toLowerStr content) "i want" = true)
    (h7 : strContains (toLowerStr content) "so that" = true)
    (h8 : strContains (toLowerStr content) "given" = true)
    (h9 : strContains (toLowerStr content) "when" = true)
    (h10 : strContains (toLowerStr content) "then" = true)
    (h11 : strContains (toLowerStr content) "%" = true)
    (hlen1 : 200 ≤ content.length) (hlen2 : content.length ≤ 5000) :
    validate_spec_content content =
      { valid := true, score := 10, message := "Specification meets all requirements" } ∧
    (call_tool s "create_spec" args).1.project =
      { s.project with specifications := s.project.specifications ++
          [Item.scored (args.title.getD "") (args.description.getD "") content
            "product_manager" "now" true 10 CrossRef.noRef] } := by
  have hl1 : ¬ content.length < 200 := by omega
  have hl2 : ¬ content.length > 5000 := by omega
  have hval : validate_spec_content content =
      { valid := true, score := 10, message := "Specification meets all requirements" } := by
    simp [validate_spec_content, sectionCheck, mkValidationResult,
      h1, h2, h3, h4, h5, h6, h7, h8, h9, h10, h11, hl1, hl2]
  refine ⟨hval, ?_⟩
  have hguid : guidanceRequested content = false := guidanceRequested_eq_false content hlen1
  simp [call_tool, handle_role_specific_tool, can_use_tool, roleTools, hrole,
    handle_create_spec, hcontent, hguid, hval, ProjectState.add_item]

set_option maxRecDepth 40000 in
/-- Witness for C8 on a concrete 289-character specification text. -/
theorem create_spec_full_marks_witness :
    validate_spec_content specContentW =
      { valid := true, score := 10, message := "Specification meets all requirements" } ∧
    (call_tool {} "create_spec"
        { title := some "Signup spec", content := some specContentW }).1.project =
      ({ specifications := [Item.scored "Signup spec" "" specContentW "product_manager"
          "now" true 10 CrossRef.noRef] } : ProjectState) :=
  create_spec_full_marks {} { title := some "Signup spec", content := some specContentW }
    specContentW rfl rfl (by decide) (by decide) (by decide) (by decide) (by decide)
    (by decide) (by decide) (by decide) (by decide) (by decide) (by decide)
    (by decide) (by decide)

end SpecwriteMCP
